import Mathlib

/-!
Verification of the persistent-counter server actions
(`src/app/actions/counter.ts`), the Redis lease helper
(`src/lib/resetKeys.ts`) and the reset HTTP route (`POST`).

Shallow embedding: the Prisma `Counter` row becomes a structure, the
database state is `Option Counter` (at most one row, `findFirst`), and
each server action is a pure function from the state and the current
time to the returned counter, the new state, and the side effects it
performed (row creation, committed row updates — each committed UPDATE
is what the Supabase realtime subscription observes as a notification —
the Redis `reset_counter` key write with its TTL, and the Next.js
`revalidatePath` call).  Timestamps are naturals (epoch seconds).
-/

/-- The Prisma `Counter` row: `{ id, value, last_updated }`. -/
structure Counter where
  id : Nat
  value : Int
  last_updated : Nat
deriving Repr, DecidableEq

/-- Side effects of one server action: the row created by
`prisma.counter.create` (if any), the rows committed by
`prisma.counter.update` in commit order (each one is an UPDATE event,
i.e. a realtime notification), the TTL passed to `redis.set` by
`setResetKey` (if called), and whether `revalidatePath` ran. -/
structure Effects where
  created : Option Counter
  updates : List Counter
  resetKeySet : Option Nat
  revalidated : Bool
deriving Repr, DecidableEq

/-- No side effect at all. -/
def noEffects : Effects := ⟨Option.none, [], Option.none, false⟩

/-- TTL (seconds) hard-coded in `src/lib/resetKeys.ts`:
`redis.set("reset_counter", "1", "EX", 1200)` — the 20-minute idle
window.  `counter.ts` imports `setResetKey` from that module. -/
def REDIS_TTL : Nat := 1200

/-- `prisma.counter.update({ where: { id: u.id }, data: ... })`:
overwrites the row with matching id, unconditionally (no compare-and-set,
no version check). -/
def dbUpdate (s : Option Counter) (u : Counter) : Option Counter :=
  match s with
  | Option.some c => if c.id = u.id then Option.some u else s
  | Option.none => s

/-- `getCounter()`: `findFirst`; when absent, `create({ value: 0,
last_updated: now })`.  Despite the comment above it in the source, it
performs no time-based reset.  `fid` is the id Prisma assigns to a
freshly created row. -/
def getCounter (s : Option Counter) (now fid : Nat) :
    Counter × Option Counter × Effects :=
  match s with
  | Option.some c => (c, Option.some c, noEffects)
  | Option.none =>
    let c : Counter := ⟨fid, 0, now⟩
    (c, Option.some c, ⟨Option.some c, [], Option.none, false⟩)

/-- `incrementCounter()`: read via `getCounter`, commit
`{ value: counter.value + 1, last_updated: now }`, call `setResetKey()`
(Redis TTL `REDIS_TTL`), then `revalidatePath('/')`. -/
def incrementCounter (s : Option Counter) (now fid : Nat) :
    Counter × Option Counter × Effects :=
  let g := getCounter s now fid
  let counter := g.1
  let updated : Counter :=
    { counter with value := counter.value + 1, last_updated := now }
  (updated, dbUpdate g.2.1 updated,
    ⟨g.2.2.created, [updated], Option.some REDIS_TTL, true⟩)

/-- `decrementCounter()`: read via `getCounter`; if `counter.value <= 0`
return the current state without changes; otherwise commit
`{ value: counter.value - 1, last_updated: now }`, call `setResetKey()`,
then `revalidatePath('/')`. -/
def decrementCounter (s : Option Counter) (now fid : Nat) :
    Counter × Option Counter × Effects :=
  let g := getCounter s now fid
  let counter := g.1
  if counter.value ≤ 0 then
    (counter, g.2.1, g.2.2)
  else
    let updated : Counter :=
      { counter with value := counter.value - 1, last_updated := now }
    (updated, dbUpdate g.2.1 updated,
      ⟨g.2.2.created, [updated], Option.some REDIS_TTL, true⟩)

/-- `updateCounterToZero()`: read via `getCounter`; if
`counter.value === 0` do nothing; otherwise commit
`{ value: 0, last_updated: now }` and `revalidatePath('/')`.
Note: no `setResetKey` call and no idleness check of any kind. -/
def updateCounterToZero (s : Option Counter) (now fid : Nat) :
    Counter × Option Counter × Effects :=
  let g := getCounter s now fid
  let counter := g.1
  if counter.value = 0 then
    (counter, g.2.1, g.2.2)
  else
    let updated : Counter :=
      { counter with value := 0, last_updated := now }
    (updated, dbUpdate g.2.1 updated,
      ⟨g.2.2.created, [updated], Option.none, true⟩)

/-- The reset route handler `POST`: reads the `x-secret` header
(`Option String`, `none` = header absent) and compares it with
`process.env.RESET_SECRET` (`none` = unset).  JavaScript strict
inequality `secret !== process.env.RESET_SECRET` holds whenever either
side is absent or the strings differ (`null !== undefined`), in which
case the handler answers 401 and never calls `updateCounterToZero`;
otherwise it resets and answers 200. -/
def POST (header config : Option String) (s : Option Counter)
    (now fid : Nat) : Nat × Option Counter × Effects :=
  let authorized : Bool :=
    match header, config with
    | Option.some h, Option.some c => h = c
    | _, _ => false
  if authorized then
    let r := updateCounterToZero s now fid
    (200, r.2.1, r.2.2)
  else
    (401, s, noEffects)

/-! ## Operation sequences (for the global invariant) -/

/-- One of the three mutating server actions. -/
inductive Op where
  | inc : Op
  | dec : Op
  | reset : Op
deriving DecidableEq, Repr

/-- Run one server action. -/
def runOp (op : Op) (s : Option Counter) (now fid : Nat) :
    Counter × Option Counter × Effects :=
  match op with
  | Op.inc => incrementCounter s now fid
  | Op.dec => decrementCounter s now fid
  | Op.reset => updateCounterToZero s now fid

/-- All counters observable from one call: the value returned to the
caller, the row created (if any) and every row committed by an UPDATE
(what realtime subscribers are shown). -/
def observed (r : Counter × Option Counter × Effects) : List Counter :=
  r.1 :: (r.2.2.created.toList ++ r.2.2.updates)

/-- Run a sequence of actions; each step carries its own clock reading
and fresh id.  Returns the final state and every observed counter. -/
def runOps : List (Op × Nat × Nat) → Option Counter →
    Option Counter × List Counter
  | [], s => (s, [])
  | step :: rest, s =>
    let r := runOp step.1 s step.2.1 step.2.2
    let t := runOps rest r.2.1
    (t.1, observed r ++ t.2)

/-- The stored value (when a row exists) is non-negative. -/
def stateNonneg (s : Option Counter) : Prop :=
  match s with
  | Option.none => True
  | Option.some c => 0 ≤ c.value

instance stateNonnegDecidable (s : Option Counter) :
    Decidable (stateNonneg s) :=
  match s with
  | Option.none => Decidable.isTrue True.intro
  | Option.some c => inferInstanceAs (Decidable (0 ≤ c.value))

/-! ## Interleaved execution of two increments

`incrementCounter` is two store round-trips: the `getCounter` read and
the `prisma.counter.update` write, whose payload `counter.value + 1` is
computed from the read, not from the row at write time.  We model a
thread as the pair (read step, write step) and interleave the steps of
two concurrent calls against the shared state. -/

/-- The row `incrementCounter` commits, computed from its earlier read
`c`: `{ value: c.value + 1, last_updated: now }`. -/
def incCommit (c : Counter) (now : Nat) : Counter :=
  { c with value := c.value + 1, last_updated := now }

/-- Two concurrent `incrementCounter` calls interleaved as
read₁, read₂, write₁, write₂ (both reads before either write).
Returns the final state and the two committed UPDATE rows (each one a
realtime notification). -/
def twoIncInterleaved (s : Option Counter) (t1 t2 : Nat) :
    Option Counter × List Counter :=
  let g1 := getCounter s t1 0
  let g2 := getCounter g1.2.1 t2 0
  let u1 := incCommit g1.1 t1
  let s3 := dbUpdate g2.2.1 u1
  let u2 := incCommit g2.1 t2
  let s4 := dbUpdate s3 u2
  (s4, [u1, u2])

/-- Two `incrementCounter` calls run one after the other (the second
reads the state the first committed). -/
def twoIncSerial (s : Option Counter) (t1 t2 : Nat) :
    Option Counter × List Counter :=
  let r1 := incrementCounter s t1 0
  let r2 := incrementCounter r1.2.1 t2 0
  (r2.2.1, r1.2.2.updates ++ r2.2.2.updates)

/-! ## Claim theorems -/

/-- Helper: one server action started in a non-negative state only ever
shows non-negative values (returned, created or committed) and leaves a
non-negative state. -/
theorem runOp_preserves_nonneg (op : Op) (s : Option Counter) (now fid : Nat)
    (h : stateNonneg s) :
    (∀ c ∈ observed (runOp op s now fid), 0 ≤ c.value) ∧
      stateNonneg (runOp op s now fid).2.1 := by
  cases op with
  | inc =>
    cases s with
    | none =>
      simp [runOp, incrementCounter, getCounter, observed, dbUpdate,
        stateNonneg, noEffects]
    | some c =>
      simp only [stateNonneg] at h
      simp [runOp, incrementCounter, getCounter, observed, dbUpdate,
        stateNonneg, noEffects]
      omega
  | dec =>
    cases s with
    | none =>
      simp [runOp, decrementCounter, getCounter, observed, dbUpdate,
        stateNonneg, noEffects]
    | some c =>
      simp only [stateNonneg] at h
      by_cases hv : c.value ≤ 0
      · simp [runOp, decrementCounter, getCounter, observed, dbUpdate,
          stateNonneg, noEffects, hv]
        omega
      · simp [runOp, decrementCounter, getCounter, observed, dbUpdate,
          stateNonneg, noEffects, hv]
        omega
  | reset =>
    cases s with
    | none =>
      simp [runOp, updateCounterToZero, getCounter, observed, dbUpdate,
        stateNonneg, noEffects]
    | some c =>
      simp only [stateNonneg] at h
      by_cases hv : c.value = 0
      · simp [runOp, updateCounterToZero, getCounter, observed, dbUpdate,
          stateNonneg, noEffects, hv]
      · simp [runOp, updateCounterToZero, getCounter, observed, dbUpdate,
          stateNonneg, noEffects, hv]

/-- Claim C1: starting from any state whose stored value is non-negative,
every value observable along any sequence of
increment/decrement/reset server actions — every counter returned to a
caller, created, or committed to the store — is non-negative, and the
final stored value is non-negative. -/
theorem counter_value_never_negative (l : List (Op × Nat × Nat))
    (s : Option Counter) (h : stateNonneg s) :
    (∀ c ∈ (runOps l s).2, 0 ≤ c.value) ∧ stateNonneg (runOps l s).1 := by
  induction l generalizing s with
  | nil => exact ⟨by simp [runOps], by simpa [runOps] using h⟩
  | cons step rest ih =>
    obtain ⟨h1, h2⟩ := runOp_preserves_nonneg step.1 s step.2.1 step.2.2 h
    obtain ⟨ih1, ih2⟩ := ih (runOp step.1 s step.2.1 step.2.2).2.1 h2
    refine ⟨?_, by simpa [runOps] using ih2⟩
    intro c hc
    simp only [runOps, List.mem_append] at hc
    rcases hc with hc | hc
    · exact h1 c hc
    · exact ih1 c hc

/-- Witness for C1: a concrete run (create, two increments, a decrement,
a reset, a decrement at zero) from the absent state. -/
theorem counter_value_never_negative_witness :
    stateNonneg (Option.none : Option Counter) ∧
      (∀ c ∈ (runOps [(Op.inc, 10, 1), (Op.inc, 20, 1), (Op.dec, 30, 1),
        (Op.reset, 40, 1), (Op.dec, 50, 1)] Option.none).2, 0 ≤ c.value) :=
  ⟨by decide,
    (counter_value_never_negative _ Option.none (by decide)).1⟩

/-- Claim C2 (counterexample): the counter was mutated at the very
moment of the reset call (`now - last_updated = 0 < REDIS_TTL`, well
inside the 20-minute window), yet `updateCounterToZero` does not abort:
it commits `{value: 0, last_updated: now}` anyway.  The code performs no
idleness re-check before committing. -/
theorem reset_ignores_recent_activity :
    1000 - 1000 < REDIS_TTL ∧
      updateCounterToZero (Option.some ⟨1, 5, 1000⟩) 1000 2 =
        (⟨1, 0, 1000⟩, Option.some ⟨1, 0, 1000⟩,
          ⟨Option.none, [⟨1, 0, 1000⟩], Option.none, true⟩) := by
  decide

/-- Claim C2 (amended): `updateCounterToZero` performs no idleness
re-check at all: whenever the read value is non-zero it commits
`{value: 0, last_updated: now}` regardless of how recently
`last_updated` was pushed forward; it returns without writing only when
the value is already zero. -/
theorem reset_unconditional_when_nonzero (s : Option Counter) (c : Counter)
    (now fid : Nat) (hs : s = Option.some c) :
    (c.value ≠ 0 →
      updateCounterToZero s now fid =
        ({ c with value := 0, last_updated := now },
          Option.some { c with value := 0, last_updated := now },
          ⟨Option.none, [{ c with value := 0, last_updated := now }],
            Option.none, true⟩)) ∧
    (c.value = 0 → updateCounterToZero s now fid = (c, s, noEffects)) := by
  subst hs
  constructor
  · intro hv
    simp [updateCounterToZero, getCounter, dbUpdate, noEffects, hv]
  · intro hv
    simp [updateCounterToZero, getCounter, noEffects, hv]

/-- Witness for the amended C2: both branches at concrete states. -/
theorem reset_unconditional_when_nonzero_witness :
    ((3 : Int) ≠ 0 →
      updateCounterToZero (Option.some ⟨1, 3, 500⟩) 900 2 =
        (⟨1, 0, 900⟩, Option.some ⟨1, 0, 900⟩,
          ⟨Option.none, [⟨1, 0, 900⟩], Option.none, true⟩)) ∧
    ((3 : Int) = 0 →
      updateCounterToZero (Option.some ⟨1, 3, 500⟩) 900 2 =
        (⟨1, 3, 500⟩, Option.some ⟨1, 3, 500⟩, noEffects)) :=
  reset_unconditional_when_nonzero (Option.some ⟨1, 3, 500⟩) ⟨1, 3, 500⟩
    900 2 rfl

/-- Claim C3: when the stored value is zero, `decrementCounter` is a
pure no-op: no database write, no created row, value and `last_updated`
unchanged, no UPDATE event (so no realtime notification), and no
`setResetKey` call (the Redis lease is not renewed). -/
theorem decrement_at_zero_pure_noop (s : Option Counter) (c : Counter)
    (now fid : Nat) (hs : s = Option.some c) (h0 : c.value = 0) :
    decrementCounter s now fid = (c, s, noEffects) := by
  subst hs
  simp [decrementCounter, getCounter, h0]

/-- Witness for C3: a concrete zero-valued counter is untouched. -/
theorem decrement_at_zero_pure_noop_witness :
    Option.some (Counter.mk 1 0 100) = Option.some (Counter.mk 1 0 100) ∧
      (Counter.mk 1 0 100).value = 0 ∧
      decrementCounter (Option.some ⟨1, 0, 100⟩) 200 2 =
        (⟨1, 0, 100⟩, Option.some ⟨1, 0, 100⟩, noEffects) :=
  ⟨rfl, by decide,
    decrement_at_zero_pure_noop (Option.some ⟨1, 0, 100⟩) ⟨1, 0, 100⟩ 200 2
      rfl (by decide)⟩

/-- Claim C4: `updateCounterToZero` is idempotent: the second of two
back-to-back calls leaves the state exactly where the first left it,
returns value zero, and has no side effect at all (no write, no UPDATE
event, no notification). -/
theorem reset_idempotent (s : Option Counter) (t1 f1 t2 f2 : Nat) :
    (updateCounterToZero (updateCounterToZero s t1 f1).2.1 t2 f2).2.1 =
        (updateCounterToZero s t1 f1).2.1 ∧
      (updateCounterToZero (updateCounterToZero s t1 f1).2.1 t2 f2).1.value
        = 0 ∧
      (updateCounterToZero (updateCounterToZero s t1 f1).2.1 t2 f2).2.2
        = noEffects := by
  cases s with
  | none => simp [updateCounterToZero, getCounter, dbUpdate, noEffects]
  | some c =>
    by_cases hv : c.value = 0 <;>
      simp [updateCounterToZero, getCounter, dbUpdate, noEffects, hv]

/-- Claim C5 (counterexample): two concurrent `incrementCounter` calls
starting at value 5, interleaved as read-read-write-write, commit two
UPDATE rows (two notifications) but the final committed value is 6, not
7: the second write, computed from its stale read of 5, silently undoes
the first (lost update). -/
theorem concurrent_increments_lose_update :
    (twoIncInterleaved (Option.some ⟨1, 5, 100⟩) 200 201).2.length = 2 ∧
      (twoIncInterleaved (Option.some ⟨1, 5, 100⟩) 200 201).1 =
        Option.some ⟨1, 6, 201⟩ ∧
      (twoIncInterleaved (Option.some ⟨1, 5, 100⟩) 200 201).1 ≠
        Option.some ⟨1, 7, 201⟩ := by
  decide

/-- Claim C5 (amended): when the two `incrementCounter` calls are
serialized (the second reads the state the first committed) the final
value is `v + 2` with two UPDATE notifications; but the commit writes an
absolute value computed from its own read, so in the interleaving where
both calls read before either writes, the final committed value is
`v + 1` — still with two UPDATE notifications — a lost update. -/
theorem increments_serial_vs_interleaved (s : Option Counter) (c : Counter)
    (t1 t2 : Nat) (hs : s = Option.some c) :
    ((twoIncSerial s t1 t2).1 =
        Option.some { c with value := c.value + 2, last_updated := t2 } ∧
      (twoIncSerial s t1 t2).2.length = 2) ∧
    ((twoIncInterleaved s t1 t2).1 =
        Option.some { c with value := c.value + 1, last_updated := t2 } ∧
      (twoIncInterleaved s t1 t2).2.length = 2) := by
  subst hs
  simp only [twoIncSerial, twoIncInterleaved, incrementCounter, getCounter,
    dbUpdate, incCommit]
  simp [Counter.mk.injEq]
  omega

/-- Witness for the amended C5: the spec's own example, `value = 5`. -/
theorem increments_serial_vs_interleaved_witness :
    ((twoIncSerial (Option.some ⟨1, 5, 100⟩) 200 201).1 =
        Option.some ⟨1, 7, 201⟩ ∧
      (twoIncSerial (Option.some ⟨1, 5, 100⟩) 200 201).2.length = 2) ∧
    ((twoIncInterleaved (Option.some ⟨1, 5, 100⟩) 200 201).1 =
        Option.some ⟨1, 6, 201⟩ ∧
      (twoIncInterleaved (Option.some ⟨1, 5, 100⟩) 200 201).2.length = 2) :=
  increments_serial_vs_interleaved (Option.some ⟨1, 5, 100⟩) ⟨1, 5, 100⟩
    200 201 rfl

/-- Claim C6 (counterexample): the store holds value 7 (the row changed
after this call read 5), yet the commit computed from the stale read
neither observes a conflict nor retries with a fresh read: it applies
and overwrites the row with 6.  No `Conflict`, no retry loop and no
`ContentionExceeded` path exists in the code. -/
theorem stale_commit_applies_without_conflict :
    dbUpdate (Option.some ⟨1, 7, 50⟩) (incCommit ⟨1, 5, 40⟩ 60) =
      Option.some ⟨1, 6, 60⟩ := by
  decide

/-- Claim C6 (amended): the commit (`prisma.counter.update`) is an
unconditional last-write-wins overwrite: whatever the current row holds,
a commit with a matching id always applies — the code never observes a
`Conflict`, hence never retries and never raises `ContentionExceeded`. -/
theorem commit_is_unconditional (s : Option Counter) (c u : Counter)
    (hs : s = Option.some c) (hid : c.id = u.id) :
    dbUpdate s u = Option.some u := by
  subst hs
  simp [dbUpdate, hid]

/-- Witness for the amended C6: a row holding 9 is overwritten by a
commit carrying 2 computed elsewhere. -/
theorem commit_is_unconditional_witness :
    (Counter.mk 1 9 70).id = (Counter.mk 1 2 80).id ∧
      dbUpdate (Option.some ⟨1, 9, 70⟩) ⟨1, 2, 80⟩ =
        Option.some ⟨1, 2, 80⟩ :=
  ⟨rfl, commit_is_unconditional (Option.some ⟨1, 9, 70⟩) ⟨1, 9, 70⟩
    ⟨1, 2, 80⟩ rfl rfl⟩

/-- Claim C7: every `incrementCounter` call commits exactly one UPDATE
row holding the read value plus one with `last_updated = now`, ends in
that state, and renews the inactivity lease: `setResetKey` writes the
Redis key with TTL `REDIS_TTL = 1200` seconds (20 minutes). -/
theorem increment_commits_and_renews_lease (s : Option Counter)
    (now fid : Nat) :
    incrementCounter s now fid =
        (incCommit (getCounter s now fid).1 now,
          Option.some (incCommit (getCounter s now fid).1 now),
          ⟨(getCounter s now fid).2.2.created,
            [incCommit (getCounter s now fid).1 now],
            Option.some REDIS_TTL, true⟩) ∧
      (incCommit (getCounter s now fid).1 now).value =
        (getCounter s now fid).1.value + 1 ∧
      (incCommit (getCounter s now fid).1 now).last_updated = now ∧
      REDIS_TTL = 1200 := by
  cases s <;>
    simp [incrementCounter, getCounter, incCommit, dbUpdate, REDIS_TTL]

/-- Claim C8: `getCounter` does no time-based reset in the read path:
an existing row is returned unchanged whatever `now` is, with no side
effect; an absent row is created with value 0 and
`last_updated = now` (the creation time). -/
theorem getCounter_no_reset_in_read_path (s : Option Counter)
    (now fid : Nat) :
    (∀ c, s = Option.some c → getCounter s now fid = (c, s, noEffects)) ∧
      (s = Option.none →
        getCounter s now fid =
          (⟨fid, 0, now⟩, Option.some ⟨fid, 0, now⟩,
            ⟨Option.some ⟨fid, 0, now⟩, [], Option.none, false⟩)) := by
  constructor
  · intro c hc
    subst hc
    simp [getCounter]
  · intro hn
    subst hn
    simp [getCounter]

/-- Witness for C8: a row last touched at time 50 is returned unchanged
when read much later (999999), and a first read at time 42 creates
`{value: 0, last_updated: 42}`. -/
theorem getCounter_no_reset_in_read_path_witness :
    getCounter (Option.some ⟨1, 3, 50⟩) 999999 7 =
        (⟨1, 3, 50⟩, Option.some ⟨1, 3, 50⟩, noEffects) ∧
      getCounter Option.none 42 7 =
        (⟨7, 0, 42⟩, Option.some ⟨7, 0, 42⟩,
          ⟨Option.some ⟨7, 0, 42⟩, [], Option.none, false⟩) :=
  ⟨(getCounter_no_reset_in_read_path (Option.some ⟨1, 3, 50⟩) 999999 7).1
      ⟨1, 3, 50⟩ rfl,
    (getCounter_no_reset_in_read_path Option.none 42 7).2 rfl⟩

/-- Claim C9: a request whose `x-secret` header is absent or differs
from the configured `RESET_SECRET` is answered 401 and has no side
effect: `updateCounterToZero` is never reached, the state is returned
untouched and no effect is recorded. -/
theorem post_unauthorized_no_side_effect (header : Option String)
    (sec : String) (s : Option Counter) (now fid : Nat)
    (h : header ≠ Option.some sec) :
    POST header (Option.some sec) s now fid = (401, s, noEffects) := by
  cases header with
  | none => simp [POST]
  | some v =>
    have hv : ¬ v = sec := fun hvs => h (by simp [hvs])
    simp [POST, hv]

/-- Witness for C9: a wrong secret against a configured one. -/
theorem post_unauthorized_no_side_effect_witness :
    Option.some "wrong" ≠ Option.some "topsecret" ∧
      POST (Option.some "wrong") (Option.some "topsecret")
          (Option.some ⟨1, 5, 100⟩) 200 2 =
        (401, Option.some ⟨1, 5, 100⟩, noEffects) :=
  ⟨by decide,
    post_unauthorized_no_side_effect (Option.some "wrong") "topsecret"
      (Option.some ⟨1, 5, 100⟩) 200 2 (by decide)⟩

/-- Claim C10: whenever the read value is ≤ 0 — including a negative
stored value — `decrementCounter` writes nothing and returns the row
exactly as stored (a negative value comes back as-is, not clamped to 0):
the clamp is only the `value <= 0` early-return guard. -/
theorem decrement_nonpositive_returns_as_is (s : Option Counter)
    (c : Counter) (now fid : Nat) (hs : s = Option.some c)
    (h0 : c.value ≤ 0) :
    decrementCounter s now fid = (c, s, noEffects) := by
  subst hs
  simp [decrementCounter, getCounter, h0]

/-- Witness for C10: a stored value of −5 comes back as −5 (not
`max (−5 − 1) 0 = 0`) with no write. -/
theorem decrement_nonpositive_returns_as_is_witness :
    (-5 : Int) ≤ 0 ∧
      decrementCounter (Option.some ⟨1, -5, 100⟩) 200 2 =
        (⟨1, -5, 100⟩, Option.some ⟨1, -5, 100⟩, noEffects) ∧
      (⟨1, -5, 100⟩ : Counter).value ≠ max ((-5 : Int) - 1) 0 :=
  ⟨by decide,
    decrement_nonpositive_returns_as_is (Option.some ⟨1, -5, 100⟩)
      ⟨1, -5, 100⟩ 200 2 rfl (by decide),
    by decide⟩
